import Mathlib

/-!
Verification of the GARCH parameter-optimization engine
(`garch_optimization.py`) against its natural-language specification.

Floating-point numbers are modelled as rationals (`ℚ`); the process-wide
pseudo-random stream is modelled by passing the already-drawn standard-normal
variates explicitly (`z : ℚ` per step, or an oracle function for objective
evaluations).  `sqrt` applications that only feed printed output are kept as
explicit radicands or as an oracle `sq : ℚ → ℚ` where their value flows into a
result.
-/

/-- The nine-component parameter vector
`[omega, alpha1, alpha2, alpha3, beta1, beta2, drift, initial_variance,
volatility_scale]` used throughout `garch_optimization.py`. -/
structure GarchParams where
  omega : ℚ
  alpha1 : ℚ
  alpha2 : ℚ
  alpha3 : ℚ
  beta1 : ℚ
  beta2 : ℚ
  drift : ℚ
  initial_variance : ℚ
  volatility_scale : ℚ
  deriving DecidableEq

/-- Rolling state of `generate_garch_simulation`: the `variance_history` and
`shock_history` lists (kept at length 3 by the `[-3:]` slicing). -/
structure SimState where
  variance_history : List ℚ
  shock_history : List ℚ
  deriving DecidableEq

/-- Python negative indexing `l[-k]` (lists here always have length ≥ k). -/
def negIdx (l : List ℚ) (k : ℕ) : ℚ := l.getD (l.length - k) 0

/-- Python slicing `l[-3:]`: keep only the last 3 values. -/
def last3 (l : List ℚ) : List ℚ := l.drop (l.length - 3)

/-- The clamp `max(0.0001, min(0.01, new_variance))` of
`generate_garch_simulation` (line 116). -/
def clampVar (v : ℚ) : ℚ := max (1/10000) (min (1/100) v)

/-- One iteration of the loop body of `generate_garch_simulation`
(lines 92–124), given the standard-normal variate `z` drawn by Box–Muller for
that step.  Returns the updated state together with the instantaneous variance
`variance_history[-1]` used for this step's emitted return
(`return_val = drift + shock * sqrt(variance_history[-1])`). -/
def garchStep (p : GarchParams) (st : SimState) (z : ℚ) : SimState × ℚ :=
  let shock := z * p.volatility_scale
  let vUsed := negIdx st.variance_history 1
  let new_variance :=
    p.omega
      + p.alpha1 * (negIdx st.shock_history 1)^2
      + p.alpha2 * (negIdx st.shock_history 2)^2
      + p.alpha3 * (negIdx st.shock_history 3)^2
      + p.beta1 * (negIdx st.variance_history 1)
      + p.beta2 * (negIdx st.variance_history 2)
  let clamped := clampVar new_variance
  (⟨last3 (st.variance_history ++ [clamped]),
    last3 (st.shock_history ++ [shock])⟩, vUsed)

/-- Initial state of `generate_garch_simulation` (lines 89–90):
`variance_history = [initial_variance] * 3`, `shock_history = [0.0] * 3`. -/
def initState (p : GarchParams) : SimState :=
  ⟨[p.initial_variance, p.initial_variance, p.initial_variance], [0, 0, 0]⟩

/-- The sequence of instantaneous variances used at each simulation step, one
per input variate. -/
def simVariances (p : GarchParams) : SimState → List ℚ → List ℚ
  | _, [] => []
  | st, z :: zs => (garchStep p st z).2 :: simVariances p (garchStep p st z).1 zs

/-- `1e-4 ≤ v ∧ v ≤ 1e-2`: the clamp interval of the simulator. -/
def goodVar (v : ℚ) : Prop := 1/10000 ≤ v ∧ v ≤ 1/100

instance (v : ℚ) : Decidable (goodVar v) :=
  inferInstanceAs (Decidable (1/10000 ≤ v ∧ v ≤ 1/100))

/-- Every element of the list lies in the clamp interval [1e-4, 1e-2]. -/
def VarInRange (l : List ℚ) : Prop := ∀ v ∈ l, goodVar v

instance (l : List ℚ) : Decidable (VarInRange l) :=
  inferInstanceAs (Decidable (∀ v ∈ l, goodVar v))

/-- Concrete parameter set for evaluating the clamp invariant: satisfies the
stationarity constraint and has `initial_variance = 0.002` inside the clamp
interval. -/
def goodParams : GarchParams :=
  ⟨1/10000, 1/100, 1/100, 1/100, 1/10, 1/10, 0, 1/500, 1⟩

/-- Concrete parameter set violating nothing the claim assumes
(Σα+Σβ = 0 < 1) but with `initial_variance = 1` outside [1e-4, 1e-2]. -/
def badIvParams : GarchParams := ⟨0, 0, 0, 0, 0, 0, 0, 1, 1⟩

/-- Python `sorted(data)` on rationals: ascending order (the output list is
determined by the multiset of values, so any sorting algorithm agrees). -/
def insertSorted (x : ℚ) : List ℚ → List ℚ
  | [] => [x]
  | y :: ys => if x ≤ y then x :: y :: ys else y :: insertSorted x ys

/-- `sorted_data = sorted(data)` of `calculate_statistics`. -/
def sortedData : List ℚ → List ℚ
  | [] => []
  | x :: xs => insertSorted x (sortedData xs)

/-- Python runtime faults relevant to `calculate_statistics`, plus the
`DataError` class named by the specification's error taxonomy.  The code
defines no `DataError`; the constructor exists only so that the spec's claim
about it can be stated. -/
inductive PyError
  | zeroDivision
  | indexError
  | dataError
  deriving DecidableEq

/-- The summary-statistics record built by `calculate_statistics`
(fallback branch, lines 46–65).  The code's `'std'` entry is
`math.sqrt(stdSq)`; the record keeps the radicand `stdSq`
(`sum((x - mean)**2 for x in data) / len(data)`), which determines it. -/
structure Stats where
  mean : ℚ
  median : ℚ
  stdSq : ℚ
  p05 : ℚ
  p10 : ℚ
  p25 : ℚ
  p75 : ℚ
  p90 : ℚ
  p95 : ℚ
  deriving DecidableEq

/-- The inner `percentile(p)` helper (lines 51–53):
`index = int(p * n / 100); sorted_data[min(index, n - 1)]`. -/
def percentileFn (sorted : List ℚ) (n : ℕ) (p : ℕ) : ℚ :=
  let index := p * n / 100
  sorted.getD (min index (n - 1)) 0

/-- The `'median'` entry (line 57):
`sorted_data[n // 2] if n % 2 == 1 else
(sorted_data[n // 2 - 1] + sorted_data[n // 2]) / 2`. -/
def medianFn (sorted : List ℚ) (n : ℕ) : ℚ :=
  if n % 2 = 1 then sorted.getD (n / 2) 0
  else (sorted.getD (n / 2 - 1) 0 + sorted.getD (n / 2) 0) / 2

/-- `calculate_statistics` (fallback branch without numpy, lines 46–65).
On an empty list Python raises `ZeroDivisionError` at `sum(data)/len(data)`
(the first dictionary entry evaluated); this is modelled by the
`Except.error` branch. -/
def calculate_statistics (data : List ℚ) : Except PyError Stats :=
  if data.length = 0 then .error .zeroDivision
  else
    let sorted := sortedData data
    let n := data.length
    .ok
      { mean := data.sum / n
        median := medianFn sorted n
        stdSq := ((data.map fun x => (x - data.sum / n)^2).sum) / n
        p05 := percentileFn sorted n 5
        p10 := percentileFn sorted n 10
        p25 := percentileFn sorted n 25
        p75 := percentileFn sorted n 75
        p90 := percentileFn sorted n 90
        p95 := percentileFn sorted n 95 }

/-- Spec-side percentile, transcribed from the specification's words:
`Percentile(p) = sorted[min(⌊p·n/100⌋, n−1)]` (nearest-rank-floor). -/
def specPercentile (data : List ℚ) (p : ℕ) : ℚ :=
  (sortedData data).getD (min (p * data.length / 100) (data.length - 1)) 0

/-- Spec-side mean with denominator `n` (population). -/
def specMean (data : List ℚ) : ℚ := data.sum / data.length

/-- Spec-side population variance (the radicand of the population std):
denominator `n`, not `n − 1`. -/
def specPopVar (data : List ℚ) : ℚ :=
  ((data.map fun x => (x - specMean data)^2).sum) / data.length

/-- Grid of `omega` values (line 208). -/
def omega_range : List ℚ := [0.00005, 0.0001, 0.0002, 0.0005]
/-- Grid of `alpha1` values (line 209). -/
def alpha1_range : List ℚ := [0.05, 0.08, 0.12, 0.15, 0.20]
/-- Grid of `alpha2` values (line 210). -/
def alpha2_range : List ℚ := [0.05, 0.08, 0.12, 0.15, 0.20]
/-- Grid of `alpha3` values (line 211). -/
def alpha3_range : List ℚ := [0.05, 0.08, 0.12, 0.15, 0.20]
/-- Grid of `beta1` values (line 212). -/
def beta1_range : List ℚ := [0.80, 0.85, 0.90, 0.92, 0.95]
/-- Grid of `beta2` values (line 213). -/
def beta2_range : List ℚ := [0.80, 0.85, 0.90, 0.92, 0.95]
/-- Grid of `drift` values (line 214). -/
def drift_range : List ℚ := [0.006, 0.008, 0.010, 0.012]
/-- Grid of `initial_variance` values (line 215). -/
def initial_variance_range : List ℚ := [0.001, 0.002, 0.003, 0.004]
/-- Grid of `volatility_scale` values (line 216). -/
def volatility_scale_range : List ℚ := [0.8, 0.9, 1.0, 1.1, 1.2]

/-- Mutable state of the grid-search loop: `best_params` (initially `None`),
`best_error` (initially `float('inf')`, modelled as `⊤ : WithTop ℚ`), and the
progress counter `count`. -/
structure GridState where
  best_params : Option GarchParams
  best_error : WithTop ℚ
  count : ℕ
  deriving DecidableEq

/-- The innermost evaluation step of grid search (lines 238–245): compute the
objective, keep it if it beats the best so far, then increment `count`.  The
objective function (which re-simulates with fresh process-wide randomness) is
abstracted as `f`. -/
def gridEval (f : GarchParams → ℚ) (st : GridState) (p : GarchParams) : GridState :=
  let error : WithTop ℚ := (f p : ℚ)
  let st' :=
    if error < st.best_error then
      { st with best_error := error, best_params := some p }
    else st
  { st' with count := st'.count + 1 }

/-- `grid_search_optimization` (lines 195–249): nested loops over the nine
parameter grids, skipping any combination with
`alpha1 + alpha2 + alpha3 + beta1 + beta2 >= 1` before the three innermost
loops, evaluating every remaining combination, and returning
`(best_params, best_error)`. -/
def grid_search_optimization (f : GarchParams → ℚ) : Option GarchParams × WithTop ℚ :=
  let final : GridState :=
    omega_range.foldl (fun st om =>
      alpha1_range.foldl (fun st a1 =>
        alpha2_range.foldl (fun st a2 =>
          alpha3_range.foldl (fun st a3 =>
            beta1_range.foldl (fun st b1 =>
              beta2_range.foldl (fun st b2 =>
                if 1 ≤ a1 + a2 + a3 + b1 + b2 then st
                else
                  drift_range.foldl (fun st dr =>
                    initial_variance_range.foldl (fun st iv =>
                      volatility_scale_range.foldl (fun st vs =>
                        gridEval f st ⟨om, a1, a2, a3, b1, b2, dr, iv, vs⟩)
                        st) st) st) st) st) st) st) st)
      ⟨none, ⊤, 0⟩
  (final.best_params, final.best_error)

/-- The `{'success': ..., 'fun': ...}` dictionary built by
`optimize_garch_parameters`. -/
structure OptSummary where
  success : Bool
  objective : WithTop ℚ
  deriving DecidableEq

/-- The grid-search branch of `optimize_garch_parameters` (lines 537–539):
wrap the grid-search result as `{'success': True, 'fun': best_error}`. -/
def optimize_garch_parameters_grid (f : GarchParams → ℚ) :
    Option GarchParams × OptSummary :=
  let r := grid_search_optimization f
  (r.1, ⟨true, r.2⟩)

/-- Starting point 1 of `scipy_optimization` (line 264), "Conservative". -/
def sp_conservative : GarchParams :=
  ⟨0.0001, 0.08, 0.05, 0.02, 0.85, 0.05, 0.0098, 0.002, 1.0⟩
/-- Starting point 2 (line 265), "Moderate". -/
def sp_moderate : GarchParams :=
  ⟨0.0002, 0.15, 0.10, 0.05, 0.75, 0.10, 0.010, 0.003, 0.8⟩
/-- Starting point 3 (line 266), "Low volatility". -/
def sp_low_vol : GarchParams :=
  ⟨0.00005, 0.05, 0.03, 0.01, 0.90, 0.02, 0.0095, 0.001, 1.2⟩
/-- Starting point 4 (line 267), "High volatility". -/
def sp_high_vol : GarchParams :=
  ⟨0.0003, 0.20, 0.15, 0.08, 0.65, 0.15, 0.011, 0.004, 0.7⟩
/-- Starting point 5 (line 268), "Balanced". -/
def sp_balanced : GarchParams :=
  ⟨0.0001, 0.12, 0.08, 0.04, 0.80, 0.08, 0.0098, 0.002, 0.9⟩

/-- The `starting_points` list of `scipy_optimization` (lines 263–269). -/
def starting_points : List GarchParams :=
  [sp_conservative, sp_moderate, sp_low_vol, sp_high_vol, sp_balanced]

/-- The three local solvers tried per starting point
(`methods = ['SLSQP', 'L-BFGS-B', 'TNC']`, line 285). -/
inductive Method
  | SLSQP
  | LBFGSB
  | TNC
  deriving DecidableEq

/-- `methods` list (line 285). -/
def methods : List Method := [.SLSQP, .LBFGSB, .TNC]

/-- A retained `(start, solver)` attempt of `scipy_optimization`: the solver
raised no exception and reported `result.success`.  `test_error` is the
re-scored validation error `validate_optimization_result(result.x, ...)`
(line 347) used for the best-so-far comparison; `reported_fun` is the solver's
own objective value `result.fun`. -/
structure AttemptSuccess where
  params : GarchParams
  test_error : ℚ
  reported_fun : ℚ
  deriving DecidableEq

/-- The double loop of `scipy_optimization` over starting points and methods
(lines 293–360), reduced to the best retained attempt.  `outcome i m` is
`none` when attempt `(i, m)` raised or reported failure, and
`some ⟨x, test_error, fun⟩` when it succeeded; the imperative
`if test_error < best_error` bookkeeping (lines 349–352, with `best_error`
initially `float('inf')`) is the fold below: the first success always beats
the initial infinity. -/
def scipyBest (outcome : ℕ → Method → Option AttemptSuccess) :
    Option AttemptSuccess :=
  (List.range starting_points.length).foldl (fun best i =>
    methods.foldl (fun best m =>
      match outcome i m with
      | none => best
      | some r =>
        match best with
        | none => some r
        | some b => if r.test_error < b.test_error then some r else some b)
      best) none

/-- `scipy_optimization`'s return (lines 362–370) combined with the dictionary
built by `optimize_garch_parameters` (line 536): if no attempt was retained
(`best_result is None`) return the first starting point with
`{'success': False, 'fun': inf}`; otherwise the best parameters with
`{'success': True, 'fun': result.fun}`. -/
def scipy_optimization (outcome : ℕ → Method → Option AttemptSuccess) :
    GarchParams × OptSummary :=
  match scipyBest outcome with
  | none => (sp_conservative, ⟨false, ⊤⟩)
  | some b => (b.params, ⟨true, (b.reported_fun : WithTop ℚ)⟩)

/-- The nine statistic names iterated by `run_multiple_realizations`
(line 442): `['mean', 'median', 'std', 'p05', 'p10', 'p25', 'p75', 'p90',
'p95']`.  A realization's statistics dictionary is modelled as a function
`StatKey → ℚ`. -/
inductive StatKey
  | mean
  | median
  | std
  | p05
  | p10
  | p25
  | p75
  | p90
  | p95
  deriving DecidableEq

/-- The iteration order of the statistics loop (line 442). -/
def stat_order : List StatKey :=
  [.mean, .median, .std, .p05, .p10, .p25, .p75, .p90, .p95]

/-- `mean_val = np.mean(values)` across realizations for one statistic
(line 444). -/
def across_mean (reals : List (StatKey → ℚ)) (k : StatKey) : ℚ :=
  ((reals.map fun r => r k).sum) / reals.length

/-- `bias = mean_val - target_val` (line 449). -/
def biasStat (reals : List (StatKey → ℚ)) (target : StatKey → ℚ) (k : StatKey) : ℚ :=
  across_mean reals k - target k

/-- The radicand of `rmse = np.sqrt(np.mean([(v - target)**2 for v in values]))`
(line 450). -/
def mean_sq_dev (reals : List (StatKey → ℚ)) (target : StatKey → ℚ) (k : StatKey) : ℚ :=
  ((reals.map fun r => (r k - target k)^2).sum) / reals.length

/-- The accumulation `total_bias += abs(bias); total_rmse += rmse` over the
nine statistics (lines 439–463).  The numeric square root used for each
statistic's rmse is supplied as the oracle `sq`. -/
def aggregate_totals (sq : ℚ → ℚ) (reals : List (StatKey → ℚ))
    (target : StatKey → ℚ) : ℚ × ℚ :=
  stat_order.foldl
    (fun acc k =>
      (acc.1 + |biasStat reals target k|, acc.2 + sq (mean_sq_dev reals target k)))
    (0, 0)

/-- The consistency verdict printed by `run_multiple_realizations`
(lines 472–479). -/
inductive Consistency
  | excellent
  | good
  | moderate
  | poor
  deriving DecidableEq

/-- The classification branches of lines 472–479, applied to `avg_bias`. -/
def classify_consistency (avg_bias : ℚ) : Consistency :=
  if avg_bias < 0.005 then .excellent
  else if avg_bias < 0.01 then .good
  else if avg_bias < 0.02 then .moderate
  else .poor

/-- The aggregate part of `run_multiple_realizations` (lines 439–479): from
the per-realization statistics and the target statistics, compute
`avg_bias = total_bias / 9`, `avg_rmse = total_rmse / 9`, and the printed
consistency classification of `avg_bias`. -/
def run_multiple_realizations (sq : ℚ → ℚ) (reals : List (StatKey → ℚ))
    (target : StatKey → ℚ) : ℚ × ℚ × Consistency :=
  let t := aggregate_totals sq reals target
  (t.1 / 9, t.2 / 9, classify_consistency (t.1 / 9))

/-- The aggregate average bias read off the claim's words: the average over
the nine statistics of `bias = across-realization mean − target`, without the
absolute value the code applies. -/
def claim_avg_bias (reals : List (StatKey → ℚ)) (target : StatKey → ℚ) : ℚ :=
  ((stat_order.map fun k => biasStat reals target k).sum) / 9

/-- Target statistics for the consistency counterexample: all zero. -/
def cexTarget : StatKey → ℚ := fun _ => 0

/-- Single realization for the consistency counterexample: its `'mean'` entry
is 1 below the target, every other statistic matches the target. -/
def cexReal : StatKey → ℚ
  | .mean => -1
  | .median => 0
  | .std => 0
  | .p05 => 0
  | .p10 => 0
  | .p25 => 0
  | .p75 => 0
  | .p90 => 0
  | .p95 => 0

/-- `tolerance = 0.001` of `find_volatility_scale` (line 176). -/
def vol_tolerance : ℚ := 0.001

/-- The `while high - low > tolerance` loop of `find_volatility_scale`
(lines 178–193), with an iteration budget (first argument) that the
termination theorem shows is never exhausted from the initial bracket, so the
budgeted model coincides with Python's unbounded loop.  `obj n s` is the
`objective_vol_scale(s)` value of the `n`-th evaluation — each evaluation
re-simulates with fresh process-wide randomness, so evaluations are
distinguished by a running counter `k`.  Returns `none` only on budget
exhaustion with the guard still true. -/
def volLoop (obj : ℕ → ℚ → ℚ) : ℕ → ℕ → ℚ → ℚ → Option ℚ
  | 0, _, low, high =>
    if vol_tolerance < high - low then none else some ((low + high) / 2)
  | fuel + 1, k, low, high =>
    if vol_tolerance < high - low then
      let mid := (low + high) / 2
      let error_mid := obj k mid
      let error_high := obj (k + 1) (mid + vol_tolerance)
      let error_low := obj (k + 2) (mid - vol_tolerance)
      if error_low < error_mid ∧ error_low < error_high then
        volLoop obj fuel (k + 3) low mid
      else if error_high < error_mid ∧ error_high < error_low then
        volLoop obj fuel (k + 3) mid high
      else some ((low + high) / 2)
    else some ((low + high) / 2)

/-- `find_volatility_scale` (lines 162–193): bracket `low, high = 0.1, 3.0`
narrowed by `volLoop`; 12 iterations always suffice since the width halves
each iteration (2.9 / 2^12 < 0.001). -/
def find_volatility_scale (obj : ℕ → ℚ → ℚ) : Option ℚ :=
  volLoop obj 12 0 0.1 3.0

/-! ## Helper lemmas -/

/-- A `foldl` whose body fixes every element of the list is the identity. -/
theorem foldl_id_of_mem {α β : Type} :
    ∀ (l : List β) (g : α → β → α), (∀ a x, x ∈ l → g a x = a) →
      ∀ s, l.foldl g s = s := by
  intro l g
  induction l with
  | nil => intro _ s; rfl
  | cons x xs ih =>
    intro h s
    rw [List.foldl_cons, h s x (List.mem_cons_self x xs)]
    exact ih (fun a y hy => h a y (List.mem_cons_of_mem x hy)) s

/-- The clamp always lands inside [1e-4, 1e-2], whatever its input. -/
theorem clampVar_good (v : ℚ) : goodVar (clampVar v) := by
  constructor
  · exact le_max_left _ _
  · exact max_le (by norm_num) (min_le_left _ _)

/-- Evaluation of one simulator step on explicit length-3 windows
`variance_history = [a, b, c]` (oldest first), `shock_history = [d, e, f]`:
the new variance is `omega + alpha1·f² + alpha2·e² + alpha3·d² + beta1·c +
beta2·b`, computed entirely from the pre-step windows, clamped, and pushed
while `a` and `d` are evicted; the variance used by the emitted return is the
pre-step `variance_history[-1] = c`. -/
theorem garchStep_eval (p : GarchParams) (a b c d e f z : ℚ) :
    garchStep p ⟨[a, b, c], [d, e, f]⟩ z =
      (⟨[b, c, clampVar (p.omega + p.alpha1 * f^2 + p.alpha2 * e^2
            + p.alpha3 * d^2 + p.beta1 * c + p.beta2 * b)],
        [e, f, z * p.volatility_scale]⟩, c) := rfl

/-- Invariant propagation: if all entries of the variance window are in the
clamp interval, every instantaneous variance produced from that state is. -/
theorem simVariances_good (p : GarchParams) :
    ∀ (zs : List ℚ) (a b c d e f : ℚ), goodVar a → goodVar b → goodVar c →
      VarInRange (simVariances p ⟨[a, b, c], [d, e, f]⟩ zs) := by
  intro zs
  induction zs with
  | nil =>
    intro a b c d e f _ _ _ v hv
    simp [simVariances] at hv
  | cons z zs ih =>
    intro a b c d e f ha hb hc v hv
    simp only [simVariances, garchStep_eval] at hv
    rcases List.mem_cons.mp hv with h | h
    · exact h ▸ hc
    · exact ih b c _ e f _ hb hc (clampVar_good _) v h

/-! ## C1 -/

/-- C1 (amended): for every parameter set satisfying the stationarity
constraint Σα + Σβ < 1 *and whose `initial_variance` lies in [1e-4, 1e-2]*,
and every sequence of drawn variates, the instantaneous variance used at each
simulation step lies within [1e-4, 1e-2]. -/
theorem garch_variance_clamp_invariant (p : GarchParams)
    (hstat : p.alpha1 + p.alpha2 + p.alpha3 + p.beta1 + p.beta2 < 1)
    (hlo : 1/10000 ≤ p.initial_variance) (hhi : p.initial_variance ≤ 1/100)
    (zs : List ℚ) :
    VarInRange (simVariances p (initState p) zs) :=
  simVariances_good p zs _ _ _ 0 0 0 ⟨hlo, hhi⟩ ⟨hlo, hhi⟩ ⟨hlo, hhi⟩

/-- Witness for C1: the hypotheses hold for `goodParams` and the invariant
follows for a concrete two-step simulation. -/
theorem garch_variance_clamp_invariant_witness :
    (goodParams.alpha1 + goodParams.alpha2 + goodParams.alpha3
        + goodParams.beta1 + goodParams.beta2 < 1
      ∧ 1/10000 ≤ goodParams.initial_variance
      ∧ goodParams.initial_variance ≤ 1/100)
    ∧ VarInRange (simVariances goodParams (initState goodParams) [1, -2]) :=
  ⟨by refine ⟨?_, ?_, ?_⟩ <;> norm_num [goodParams],
   garch_variance_clamp_invariant goodParams (by norm_num [goodParams])
     (by norm_num [goodParams]) (by norm_num [goodParams]) [1, -2]⟩

/-- Counterexample to C1 as stated: `badIvParams` satisfies Σα + Σβ < 1, yet
with `initial_variance = 1` the variance used at the first step is 1,
outside [1e-4, 1e-2] — the initial window entries are never clamped. -/
theorem garch_variance_clamp_cex :
    (badIvParams.alpha1 + badIvParams.alpha2 + badIvParams.alpha3
        + badIvParams.beta1 + badIvParams.beta2 < 1)
    ∧ ¬ VarInRange (simVariances badIvParams (initState badIvParams) [0]) := by
  constructor
  · norm_num [badIvParams]
  · intro h
    have h1 := h 1 (by simp [simVariances, garchStep, initState, badIvParams, negIdx])
    have h2 := h1.2
    norm_num at h2

/-! ## C6 -/

/-- C6: at every simulation step, the next variance pushed into the window is
`omega + Σᵢ αᵢ·shock_{t-i}² + Σⱼ βⱼ·variance_{t-j}` computed from the rolling
windows as they stood before the push; only the clamped value and the new
shock are pushed, evicting the oldest entries; and the pushed variance is
independent of the step's own variate `z` (the current shock never feeds its
own variance update). -/
theorem garch_step_window_update (p : GarchParams) (st : SimState)
    (z z' a b c d e f : ℚ)
    (hv : st.variance_history = [a, b, c]) (hs : st.shock_history = [d, e, f]) :
    (garchStep p st z).1.variance_history
      = [b, c, clampVar (p.omega + p.alpha1 * f^2 + p.alpha2 * e^2
          + p.alpha3 * d^2 + p.beta1 * c + p.beta2 * b)]
    ∧ (garchStep p st z).1.shock_history = [e, f, z * p.volatility_scale]
    ∧ (garchStep p st z).1.variance_history
      = (garchStep p st z').1.variance_history := by
  obtain ⟨v, s⟩ := st
  cases hv
  cases hs
  exact ⟨rfl, rfl, rfl⟩

/-- Witness for C6: the window-update characterisation at a concrete state,
parameter set and pair of variates. -/
theorem garch_step_window_update_witness :
    ((⟨[1, 2, 3], [4, 5, 6]⟩ : SimState).variance_history = [1, 2, 3]
      ∧ (⟨[1, 2, 3], [4, 5, 6]⟩ : SimState).shock_history = [4, 5, 6])
    ∧ ((garchStep goodParams ⟨[1, 2, 3], [4, 5, 6]⟩ 7).1.variance_history
        = [2, 3, clampVar (goodParams.omega + goodParams.alpha1 * 6^2
            + goodParams.alpha2 * 5^2 + goodParams.alpha3 * 4^2
            + goodParams.beta1 * 3 + goodParams.beta2 * 2)]
      ∧ (garchStep goodParams ⟨[1, 2, 3], [4, 5, 6]⟩ 7).1.shock_history
        = [5, 6, 7 * goodParams.volatility_scale]
      ∧ (garchStep goodParams ⟨[1, 2, 3], [4, 5, 6]⟩ 7).1.variance_history
        = (garchStep goodParams ⟨[1, 2, 3], [4, 5, 6]⟩ 100).1.variance_history) :=
  ⟨⟨rfl, rfl⟩,
   garch_step_window_update goodParams ⟨[1, 2, 3], [4, 5, 6]⟩ 7 100
     1 2 3 4 5 6 rfl rfl⟩

/-! ## C4 -/

/-- C4 (amended): applied to an empty return series, `calculate_statistics`
fails with a `ZeroDivisionError` raised while computing the mean
(`sum(data)/len(data)`), not with a dedicated `DataError`. -/
theorem empty_input_zero_division :
    calculate_statistics ([] : List ℚ) = .error .zeroDivision := rfl

/-- Counterexample to C4 as stated: on the empty series the failure is a
`ZeroDivisionError`, which is a different fault from the `DataError` the spec
taxonomy prescribes (the code defines no `DataError` at all). -/
theorem empty_input_not_dataerror_cex :
    calculate_statistics ([] : List ℚ) = .error .zeroDivision
    ∧ PyError.zeroDivision ≠ PyError.dataError :=
  ⟨rfl, by simp⟩

/-! ## C3 -/

/-- C3 (amended): for a non-empty series, the nearest-rank percentile at
p = 50 equals the reported median when n is odd; when n is even it equals the
upper middle element `sorted[n/2]`, and hence equals the reported median
(the average of the two middle elements) exactly when the two middle elements
coincide. -/
theorem percentile50_vs_median (data : List ℚ) (s : Stats)
    (h : calculate_statistics data = .ok s) :
    (data.length % 2 = 1 →
      percentileFn (sortedData data) data.length 50 = s.median)
    ∧ (data.length % 2 = 0 →
      percentileFn (sortedData data) data.length 50
        = (sortedData data).getD (data.length / 2) 0
      ∧ ((sortedData data).getD (data.length / 2 - 1) 0
            = (sortedData data).getD (data.length / 2) 0 →
          percentileFn (sortedData data) data.length 50 = s.median)) := by
  by_cases hn : data.length = 0
  · simp [calculate_statistics, hn] at h
  · have hidx : min (50 * data.length / 100) (data.length - 1) = data.length / 2 := by
      omega
    have hp : percentileFn (sortedData data) data.length 50
        = (sortedData data).getD (data.length / 2) 0 := by
      show (sortedData data).getD (min (50 * data.length / 100) (data.length - 1)) 0 = _
      rw [hidx]
    have hmed : s.median = medianFn (sortedData data) data.length := by
      simp [calculate_statistics, hn] at h
      rw [← h]
    constructor
    · intro hodd
      rw [hp, hmed]
      unfold medianFn
      rw [if_pos hodd]
    · intro heven
      refine ⟨hp, fun hmid => ?_⟩
      rw [hp, hmed]
      unfold medianFn
      rw [if_neg (by omega), hmid]
      ring

/-- The statistics record of the series `[1, 2, 3]`. -/
def statsOdd : Stats := ⟨2, 2, 2/3, 1, 1, 1, 3, 3, 3⟩

/-- Witness for C3 at the odd-length series `[1, 2, 3]`. -/
theorem percentile50_vs_median_witness :
    calculate_statistics [(1 : ℚ), 2, 3] = .ok statsOdd
    ∧ (([(1 : ℚ), 2, 3].length % 2 = 1 →
        percentileFn (sortedData [(1 : ℚ), 2, 3]) [(1 : ℚ), 2, 3].length 50
          = statsOdd.median)
      ∧ ([(1 : ℚ), 2, 3].length % 2 = 0 →
        percentileFn (sortedData [(1 : ℚ), 2, 3]) [(1 : ℚ), 2, 3].length 50
          = (sortedData [(1 : ℚ), 2, 3]).getD ([(1 : ℚ), 2, 3].length / 2) 0
        ∧ ((sortedData [(1 : ℚ), 2, 3]).getD ([(1 : ℚ), 2, 3].length / 2 - 1) 0
              = (sortedData [(1 : ℚ), 2, 3]).getD ([(1 : ℚ), 2, 3].length / 2) 0 →
            percentileFn (sortedData [(1 : ℚ), 2, 3]) [(1 : ℚ), 2, 3].length 50
              = statsOdd.median))) :=
  ⟨by norm_num [calculate_statistics, sortedData, insertSorted, medianFn,
      percentileFn, statsOdd],
   percentile50_vs_median [(1 : ℚ), 2, 3] statsOdd
     (by norm_num [calculate_statistics, sortedData, insertSorted, medianFn,
        percentileFn, statsOdd])⟩

/-- Counterexample to C3 as stated: for the even-length series `[0, 1]` the
nearest-rank p50 is `sorted[1] = 1`, while `calculate_statistics` reports the
median `(0 + 1)/2 = 1/2`. -/
theorem percentile50_vs_median_cex :
    calculate_statistics [(0 : ℚ), 1] = .ok ⟨1/2, 1/2, 1/4, 0, 0, 0, 1, 1, 1⟩
    ∧ percentileFn (sortedData [(0 : ℚ), 1]) 2 50 = 1
    ∧ ((1 : ℚ) ≠ 1/2) := by
  refine ⟨?_, ?_, by norm_num⟩
  · norm_num [calculate_statistics, sortedData, insertSorted, medianFn, percentileFn]
  · norm_num [percentileFn, sortedData, insertSorted]

/-! ## C5 -/

/-- C5: for every non-empty series, `calculate_statistics` computes the mean
and the std radicand with denominator n (population moments), and every
reported percentile p ∈ {5, 10, 25, 75, 90, 95} equals the spec's
nearest-rank-floor formula `sorted[min(⌊p·n/100⌋, n−1)]`. -/
theorem calculate_statistics_formulas (data : List ℚ) (s : Stats)
    (h : calculate_statistics data = .ok s) :
    s.mean = specMean data ∧ s.stdSq = specPopVar data
    ∧ s.p05 = specPercentile data 5 ∧ s.p10 = specPercentile data 10
    ∧ s.p25 = specPercentile data 25 ∧ s.p75 = specPercentile data 75
    ∧ s.p90 = specPercentile data 90 ∧ s.p95 = specPercentile data 95 := by
  by_cases hn : data.length = 0
  · simp [calculate_statistics, hn] at h
  · simp [calculate_statistics, hn] at h
    rw [← h]
    exact ⟨rfl, rfl, rfl, rfl, rfl, rfl, rfl, rfl⟩

/-- The statistics record of the series `[1, 2]`. -/
def statsEven : Stats := ⟨3/2, 3/2, 1/4, 1, 1, 1, 2, 2, 2⟩

/-- Witness for C5 at the series `[1, 2]`. -/
theorem calculate_statistics_formulas_witness :
    calculate_statistics [(1 : ℚ), 2] = .ok statsEven
    ∧ (statsEven.mean = specMean [(1 : ℚ), 2]
      ∧ statsEven.stdSq = specPopVar [(1 : ℚ), 2]
      ∧ statsEven.p05 = specPercentile [(1 : ℚ), 2] 5
      ∧ statsEven.p10 = specPercentile [(1 : ℚ), 2] 10
      ∧ statsEven.p25 = specPercentile [(1 : ℚ), 2] 25
      ∧ statsEven.p75 = specPercentile [(1 : ℚ), 2] 75
      ∧ statsEven.p90 = specPercentile [(1 : ℚ), 2] 90
      ∧ statsEven.p95 = specPercentile [(1 : ℚ), 2] 95) :=
  ⟨by norm_num [calculate_statistics, sortedData, insertSorted, medianFn,
      percentileFn, statsEven],
   calculate_statistics_formulas [(1 : ℚ), 2] statsEven
     (by norm_num [calculate_statistics, sortedData, insertSorted, medianFn,
        percentileFn, statsEven])⟩

/-! ## C2 -/

/-- Every grid value of `alpha1` is at least 0.05. -/
theorem alpha1_range_lb : ∀ x ∈ alpha1_range, (1/20 : ℚ) ≤ x := by
  intro x hx
  simp only [alpha1_range, List.mem_cons, List.not_mem_nil, or_false] at hx
  rcases hx with h | h | h | h | h <;> (subst h; norm_num)

/-- Every grid value of `alpha2` is at least 0.05. -/
theorem alpha2_range_lb : ∀ x ∈ alpha2_range, (1/20 : ℚ) ≤ x := by
  intro x hx
  simp only [alpha2_range, List.mem_cons, List.not_mem_nil, or_false] at hx
  rcases hx with h | h | h | h | h <;> (subst h; norm_num)

/-- Every grid value of `alpha3` is at least 0.05. -/
theorem alpha3_range_lb : ∀ x ∈ alpha3_range, (1/20 : ℚ) ≤ x := by
  intro x hx
  simp only [alpha3_range, List.mem_cons, List.not_mem_nil, or_false] at hx
  rcases hx with h | h | h | h | h <;> (subst h; norm_num)

/-- Every grid value of `beta1` is at least 0.80. -/
theorem beta1_range_lb : ∀ x ∈ beta1_range, (4/5 : ℚ) ≤ x := by
  intro x hx
  simp only [beta1_range, List.mem_cons, List.not_mem_nil, or_false] at hx
  rcases hx with h | h | h | h | h <;> (subst h; norm_num)

/-- Every grid value of `beta2` is at least 0.80. -/
theorem beta2_range_lb : ∀ x ∈ beta2_range, (4/5 : ℚ) ≤ x := by
  intro x hx
  simp only [beta2_range, List.mem_cons, List.not_mem_nil, or_false] at hx
  rcases hx with h | h | h | h | h <;> (subst h; norm_num)

/-- C2: for every objective function (hence for every input series whose
target statistics were computed successfully), grid search runs to completion
and `optimize_garch_parameters` wraps its result with `success = True`.  In
this concrete grid every `beta1 + beta2 ≥ 1.6`, so every combination is
skipped by the stationarity filter and the reported best-so-far is the
initial `(None, inf)` — the "no combination beat the initial infinity" case
the claim allows. -/
theorem grid_search_never_fails (f : GarchParams → ℚ) :
    grid_search_optimization f = (none, (⊤ : WithTop ℚ))
    ∧ optimize_garch_parameters_grid f = (none, ⟨true, ⊤⟩) := by
  have hfold :
      grid_search_optimization f = (none, (⊤ : WithTop ℚ)) := by
    simp only [grid_search_optimization]
    rw [foldl_id_of_mem]
    intro s om _
    show List.foldl _ s alpha1_range = s
    apply foldl_id_of_mem
    intro s a1 h1
    show List.foldl _ s alpha2_range = s
    apply foldl_id_of_mem
    intro s a2 h2
    show List.foldl _ s alpha3_range = s
    apply foldl_id_of_mem
    intro s a3 h3
    show List.foldl _ s beta1_range = s
    apply foldl_id_of_mem
    intro s b1 h4
    show List.foldl _ s beta2_range = s
    apply foldl_id_of_mem
    intro s b2 h5
    have l1 := alpha1_range_lb a1 h1
    have l2 := alpha2_range_lb a2 h2
    have l3 := alpha3_range_lb a3 h3
    have l4 := beta1_range_lb b1 h4
    have l5 := beta2_range_lb b2 h5
    show (if 1 ≤ a1 + a2 + a3 + b1 + b2 then s else _) = s
    rw [if_pos (by linarith)]
  exact ⟨hfold, by simp [optimize_garch_parameters_grid, hfold]⟩

/-! ## C8 -/

/-- One grid evaluation never increases `best_error`. -/
theorem gridEval_best_le (f : GarchParams → ℚ) (st : GridState) (p : GarchParams) :
    (gridEval f st p).best_error ≤ st.best_error := by
  unfold gridEval
  dsimp only
  split
  · next h => exact le_of_lt h
  · exact le_refl _

/-- A run of grid evaluations never increases `best_error`. -/
theorem gridFold_best_le (f : GarchParams → ℚ) (ps : List GarchParams) :
    ∀ st : GridState, (ps.foldl (gridEval f) st).best_error ≤ st.best_error := by
  induction ps with
  | nil => intro st; exact le_refl _
  | cons p ps ih =>
    intro st
    rw [List.foldl_cons]
    exact le_trans (ih (gridEval f st p)) (gridEval_best_le f st p)

/-- C8: the tracked best error is non-increasing: each single evaluation
leaves it less than or equal to its previous value, and hence so does any
sequence of evaluated combinations. -/
theorem grid_best_error_monotone (f : GarchParams → ℚ) (st : GridState)
    (p : GarchParams) (ps : List GarchParams) :
    (gridEval f st p).best_error ≤ st.best_error
    ∧ (ps.foldl (gridEval f) st).best_error ≤ st.best_error :=
  ⟨gridEval_best_le f st p, gridFold_best_le f ps st⟩

/-! ## C7 -/

/-- C7: if every `(starting point, solver)` attempt fails, the multi-start
optimizer returns the first starting point together with
`{'success': False, 'fun': inf}`, and does not raise. -/
theorem scipy_all_fail_first_start (outcome : ℕ → Method → Option AttemptSuccess)
    (h : ∀ i m, outcome i m = none) :
    scipy_optimization outcome = (sp_conservative, ⟨false, ⊤⟩) := by
  have hb : scipyBest outcome = none := by
    unfold scipyBest
    apply foldl_id_of_mem
    intro best i _
    apply foldl_id_of_mem
    intro best' m _
    simp only [h]
  simp [scipy_optimization, hb]

/-- Witness for C7: with every attempt failing, the result is the first
starting point flagged unsuccessful. -/
theorem scipy_all_fail_first_start_witness :
    scipy_optimization (fun _ _ => none) = (sp_conservative, ⟨false, ⊤⟩) :=
  scipy_all_fail_first_start (fun _ _ => none) (fun _ _ => rfl)

/-! ## C9 -/

/-- C9 (amended): the consistency validator aggregates the average of the
*absolute* per-statistic biases (bias = across-realization mean − target) and
an average rmse over the nine statistics, and classifies the average absolute
bias as excellent (< 0.005), good (< 0.01), moderate (< 0.02), poor
otherwise. -/
theorem consistency_aggregate_classification (sq : ℚ → ℚ)
    (reals : List (StatKey → ℚ)) (target : StatKey → ℚ) :
    (run_multiple_realizations sq reals target).1
      = ((stat_order.map fun k => |biasStat reals target k|).sum) / 9
    ∧ (run_multiple_realizations sq reals target).2.1
      = ((stat_order.map fun k => sq (mean_sq_dev reals target k)).sum) / 9
    ∧ (run_multiple_realizations sq reals target).2.2
      = classify_consistency
          (((stat_order.map fun k => |biasStat reals target k|).sum) / 9) := by
  have ht : aggregate_totals sq reals target
      = ((stat_order.map fun k => |biasStat reals target k|).sum,
         (stat_order.map fun k => sq (mean_sq_dev reals target k)).sum) := by
    simp only [aggregate_totals, stat_order, List.foldl_cons, List.foldl_nil,
      List.map_cons, List.map_nil, List.sum_cons, List.sum_nil]
    rw [Prod.mk.injEq]
    constructor <;> ring
  simp [run_multiple_realizations, ht]

/-- Counterexample to C9 as stated: with one realization whose `'mean'` lies
1 below the target and all other statistics on target, the claim's signed
average bias is −1/9 < 0.005 (so the claim classifies the aggregate as
excellent), but the code averages absolute biases (1/9) and prints the poor
classification. -/
theorem consistency_signed_bias_cex :
    claim_avg_bias [cexReal] cexTarget < 0.005
    ∧ (run_multiple_realizations id [cexReal] cexTarget).2.2 = Consistency.poor := by
  constructor
  · norm_num [claim_avg_bias, stat_order, biasStat, across_mean, cexReal, cexTarget]
  · norm_num [run_multiple_realizations, aggregate_totals, stat_order, biasStat,
      across_mean, mean_sq_dev, cexReal, cexTarget, classify_consistency]

/-! ## C10 -/

/-- If the bracket width is at most `tolerance·2^fuel`, the narrowing loop
reaches the guard failure or the break before exhausting `fuel` iterations:
each non-break iteration halves the bracket width. -/
theorem volLoop_isSome :
    ∀ (fuel : ℕ) (obj : ℕ → ℚ → ℚ) (k : ℕ) (low high : ℚ),
      high - low ≤ vol_tolerance * 2 ^ fuel →
      (volLoop obj fuel k low high).isSome = true := by
  intro fuel
  induction fuel with
  | zero =>
    intro obj k low high h
    rw [pow_zero, mul_one] at h
    unfold volLoop
    rw [if_neg (not_lt.mpr h)]
    rfl
  | succ n ih =>
    intro obj k low high h
    rw [pow_succ] at h
    unfold volLoop
    by_cases hg : vol_tolerance < high - low
    · rw [if_pos hg]
      dsimp only
      split
      · apply ih
        have hw : (low + high) / 2 - low = (high - low) / 2 := by ring
        rw [hw]
        linarith
      · split
        · apply ih
          have hw : high - (low + high) / 2 = (high - low) / 2 := by ring
          rw [hw]
          linarith
        · rfl
    · rw [if_neg hg]
      rfl

/-- C10: for every objective oracle (hence any parameters, target std and
simulator randomness), `find_volatility_scale` terminates: from the initial
bracket [0.1, 3.0] the loop ends — by the width guard or the neither-offset-
improves break — within 12 iterations, since 2.9 ≤ 0.001·2¹². -/
theorem find_volatility_scale_terminates (obj : ℕ → ℚ → ℚ) :
    (find_volatility_scale obj).isSome = true := by
  apply volLoop_isSome
  norm_num [vol_tolerance]
